import Mathlib

/-!
# Verification of the code_evaluator grading pipeline

Shallow embedding of the evaluation pipeline:
`evaluator_service/openai_service.py` (response parsing, error envelopes),
`evaluator_service/code_evaluator.py` (double-pass reconciliation, batch
orchestration, aggregation) and `cache_utils.py` (instrumented cache
wrappers).

Modelling conventions:
* Python dictionaries whose keys are fixed by the source become structures;
  a key that a given code path never writes takes the structure's default,
  mirroring `dict.get(key, default)`.
* The external model call (`evaluate_code_with_rubric`, absent from the
  service class) is an oracle parameter: each artifact's two calls are the
  pair of `Option` results the oracle supplies; `none` models a Python
  `None`/falsy response.
* `json.loads` is a library function, modelled as an oracle
  `String → JsonOutcome` reporting decode failure, a non-object value
  (whose `.get` raises `AttributeError`), or the two fields the parser reads.
* Wall-clock timing fields are carried but fed the constant 0.
* The md5 hex digest of `generate_cache_key` is modelled by the hashed
  text itself (the model assumes no hash collisions).
-/

namespace CodeEval

/-- A decoded Python/JSON scalar as it can reach `points_lost`/`feedback`
(`json.loads` output).  `bool` is separate because Python treats booleans
as integers in `isinstance(x, int)` checks; floats are carried as rationals. -/
inductive PyJson where
  | str (s : String)
  | int (n : Int)
  | bool (b : Bool)
  | flt (q : Rat)
  deriving DecidableEq, Repr

/-- Python `str()` rendering of a scalar, as used by f-string interpolation. -/
def pyStr : PyJson → String
  | .str s => s
  | .int n => toString n
  | .bool b => if b then "True" else "False"
  | .flt q => toString q

/-- Outcome of `json.loads` on the stripped response text.
`failure` is a `json.JSONDecodeError`; `nonObject` is any decoded value that
is not a dict, so the subsequent `parsed.get` raises an `AttributeError`
carrying `errMsg`; `object` records the only two keys the parser reads. -/
inductive JsonOutcome where
  | failure
  | nonObject (errMsg : String)
  | object (feedback : Option PyJson) (points_lost : Option PyJson)
  deriving DecidableEq, Repr

/-- One entry of a `result['result']['issues']` list: the keys read are
`issue.get('issue', 'Unknown issue')` and `issue.get('points', 2)`,
so both are optional here. -/
structure Issue where
  issue : Option String
  points : Option Int
  deriving DecidableEq, Repr

/-- The value under a result's `'result'` key: either the literal string
`"correct"` or a dict carrying an `'issues'` list (`{}` is `data []`). -/
inductive ResultData where
  | correct
  | data (issues : List Issue)
  deriving DecidableEq, Repr

/-- A per-call / per-artifact evaluation result dictionary.  Field defaults
model keys that a producing code path leaves absent
(`result.get(key, default)` semantics). -/
structure EvalResult where
  filename : String := ""
  status : String
  error_type : Option String := none
  feedback : PyJson
  total_points_lost : Int
  deductions : List Issue
  raw_response : Option String := none
  result : Option ResultData := none
  topics_lacking : List String := []
  summary : String := ""
  input_tokens : Nat := 0
  output_tokens : Nat := 0
  total_tokens : Nat := 0
  evaluation_time_seconds : Rat := 0
  deriving DecidableEq, Repr

/-- Python `str.strip()`: drop leading and trailing whitespace.  (Defined
over the character list so that concrete inputs evaluate by `decide`.) -/
def py_strip (s : String) : String :=
  ⟨List.reverse (List.dropWhile Char.isWhitespace
    (List.reverse (List.dropWhile Char.isWhitespace s.data)))⟩

/-- The digits of a decimal literal, `none` if empty or any character is
not an ASCII digit. -/
def digits_nat (l : List Char) : Option Nat :=
  if l = [] then none
  else l.foldl
    (fun acc c => acc.bind
      (fun a => if c.isDigit then some (a * 10 + (c.toNat - 48)) else none))
    (some 0)

/-- Python `int(s)` on a string: surrounding whitespace and a sign are
allowed, anything unparsable raises (modelled as `none`). -/
def pyIntOfString (s : String) : Option Int :=
  match (py_strip s).data with
  | [] => none
  | c :: rest =>
      if c = '-' then (digits_nat rest).map (fun n => -(n : Int))
      else if c = '+' then (digits_nat rest).map (fun n => (n : Int))
      else (digits_nat (c :: rest)).map (fun n => (n : Int))

/-- The `points_lost` coercion of `_parse_evaluation_response`
(`openai_service.py` lines 228-234 plus the final `int(points_lost)`):
strings go through `int()` with fallback 0, booleans are `int` instances,
floats truncate toward zero, anything else becomes 0; an absent key
defaults to 0. -/
def coerce_points_lost : Option PyJson → Int
  | none => 0
  | some (.str s) => (pyIntOfString s).getD 0
  | some (.int n) => n
  | some (.bool b) => if b then 1 else 0
  | some (.flt q) => q.num.tdiv q.den

/-- `OpenAIService._create_error_response` (openai_service.py lines 254-271). -/
def _create_error_response (error_type message : String) : EvalResult :=
  { status := "error"
    error_type := some error_type
    feedback := .str ("Error: " ++ message)
    total_points_lost := 0
    deductions := [] }

/-- `CodeEvaluator._create_error_result` (code_evaluator.py lines 290-308). -/
def _create_error_result (filename error_message : String) : EvalResult :=
  { filename := filename
    status := "error"
    feedback := .str ("Error evaluating " ++ filename ++ ": " ++ error_message)
    total_points_lost := 0
    deductions := []
    evaluation_time_seconds := 0 }

/-- `OpenAIService._parse_evaluation_response` (openai_service.py lines
205-252), with `json.loads` supplied as the `loads` oracle.  The response is
stripped first (the local `response` is reassigned, so both `feedback` in the
decode-failure branch and `raw_response` hold the stripped text).  A decoded
non-object makes `parsed.get` raise, which the enclosing `except` turns into
a `PARSE_ERROR` envelope. -/
def _parse_evaluation_response (loads : String → JsonOutcome)
    (response filename : String) : EvalResult :=
  let r := py_strip response
  match loads r with
  | .object fb pl =>
      { filename := filename
        status := "success"
        feedback := fb.getD (.str "")
        total_points_lost := coerce_points_lost pl
        deductions := []
        raw_response := some r }
  | .failure =>
      { filename := filename
        status := "success"
        feedback := .str r
        total_points_lost := 0
        deductions := []
        raw_response := some r }
  | .nonObject errMsg => _create_error_response "PARSE_ERROR" errMsg

/-- `CodeEvaluator.evaluate_single_file` (code_evaluator.py lines 21-79),
parametrised by the two external call outcomes (`none` = falsy/`None`
response) and the elapsed wall-clock time.  Besides the source's
`(filename, result)` pair it returns the number of external calls actually
issued: a falsy initial result returns the error envelope after one call,
otherwise both calls have been made and the double-pass selection runs. -/
def evaluate_single_file (filename : String)
    (initial_result double_check_result : Option EvalResult)
    (elapsed : Rat) : (String × EvalResult) × Nat :=
  match initial_result with
  | none =>
      ((filename, _create_error_result filename "Failed to get initial evaluation"), 1)
  | some ir =>
      let final_result :=
        match double_check_result with
        | none => ir
        | some dc =>
            if ir.status = "error" ∧ dc.status ≠ "error" then dc
            else if dc.deductions.length > ir.deductions.length then dc
            else ir
      ((filename, { final_result with evaluation_time_seconds := elapsed }), 2)

/-- A value of the batch's `lab_feedback` dict: either a plain string
(`"correct"` or an `"Error - ..."` message) or the `formatted_issues`
dict of description ↦ `"-N points"` entries. -/
inductive LabFeedback where
  | text (s : String)
  | entries (l : List (String × String))
  deriving DecidableEq, Repr

/-- Python-dict insertion: overwriting an existing key keeps its position,
a new key is appended. -/
def dict_insert (l : List (String × String)) (k v : String) :
    List (String × String) :=
  if l.any (fun p => p.1 = k) then
    l.map (fun p => if p.1 = k then (k, v) else p)
  else l ++ [(k, v)]

/-- The inner issue-formatting loop of `evaluate_all_files`
(code_evaluator.py lines 153-159): builds `formatted_issues` and
accumulates `file_points_lost = Σ abs(issue.get('points', 2))`. -/
def format_issues (issues : List Issue) : List (String × String) × Int :=
  issues.foldl
    (fun acc i =>
      let issue_desc := i.issue.getD "Unknown issue"
      let points := |i.points.getD 2|
      (dict_insert acc.1 issue_desc ("-" ++ toString points ++ " points"),
       acc.2 + points))
    ([], 0)

/-- Python `set.update` modelled as insertion-ordered deduplication (the
iteration order of a Python set is unspecified; this model fixes insertion
order, which no claim depends on beyond the empty and singleton cases). -/
def set_update (s : List String) (ts : List String) : List String :=
  ts.foldl (fun acc t => if t ∈ acc then acc else acc ++ [t]) s

/-- Accumulator of the result-formatting loop of `evaluate_all_files`
(code_evaluator.py lines 138-174). -/
structure BatchAcc where
  lab_feedback : List (String × LabFeedback)
  total_points_lost : Int
  all_topics_lacking : List String
  all_summaries : List String
  deriving Repr

/-- One iteration of the result-formatting loop of `evaluate_all_files`
(code_evaluator.py lines 143-174): non-error results contribute their
recomputed issue points, topics and summary; error results contribute only
an `"Error - ..."` feedback line. -/
def format_step (acc : BatchAcc) (pr : String × EvalResult) : BatchAcc :=
  let filename := pr.1
  let result := pr.2
  if result.status ≠ "error" then
    let acc1 :=
      match result.result.getD (.data []) with
      | .correct =>
          { acc with lab_feedback := acc.lab_feedback ++ [(filename, LabFeedback.text "correct")] }
      | .data issues =>
          if issues.isEmpty then
            { acc with lab_feedback := acc.lab_feedback ++ [(filename, LabFeedback.text "correct")] }
          else
            let fi := format_issues issues
            { acc with
              total_points_lost := acc.total_points_lost + fi.2
              lab_feedback := acc.lab_feedback ++ [(filename, LabFeedback.entries fi.1)] }
    let acc2 :=
      { acc1 with
        all_topics_lacking := set_update acc1.all_topics_lacking result.topics_lacking }
    if result.summary ≠ "" then
      { acc2 with all_summaries := acc2.all_summaries ++ [result.summary] }
    else acc2
  else
    { acc with
      lab_feedback :=
        acc.lab_feedback ++ [(filename, LabFeedback.text ("Error - " ++ pyStr result.feedback))] }

/-- The fixed `topic_mapping` table of
`_create_overall_feedback_from_topics` (code_evaluator.py lines 357-365). -/
def topic_mapping : List (String × String) :=
  [("array_handling", "array manipulation"),
   ("loop_control", "loop implementation"),
   ("variable_scope", "variable usage"),
   ("function_definition", "function creation"),
   ("conditional_statements", "if/else logic"),
   ("input_output", "input/output operations"),
   ("basic_calculations", "mathematical operations")]

/-- `CodeEvaluator._create_overall_feedback_from_topics`
(code_evaluator.py lines 337-381).  Note that it never inspects error
status: its only inputs are the collected topics, summaries (unused),
recomputed point total and file count. -/
def _create_overall_feedback_from_topics (topics_lacking : List String)
    (summaries : List String) (total_points_lost : Int) (total_files : Nat) :
    String :=
  if topics_lacking = [] ∧ total_points_lost = 0 then
    "Student demonstrates excellent understanding of core programming concepts. All labs completed successfully!"
  else
    let topics := if topics_lacking = [] then ["general programming concepts"] else topics_lacking
    let readable_topics :=
      topics.map (fun t => ((List.lookup t topic_mapping).getD (t.replace "_" " ")))
    let topic_focus :=
      match readable_topics with
      | [] => ""
      | [t] => t
      | [t1, t2] => t1 ++ " and " ++ t2
      | l => String.intercalate ", " l.dropLast ++ ", and " ++ (l.getLast?.getD "")
    if total_points_lost = 0 then
      "Student shows good progress but could benefit from additional practice with " ++ topic_focus ++ "."
    else
      "Student needs improvement in " ++ topic_focus ++ ". Total points lost: " ++
        toString total_points_lost ++ ". Focus on mastering these core programming concepts."

/-- A rubric as passed around by the orchestrator: an opaque
criterion ↦ points mapping, never inspected by `code_evaluator.py`
(the `rubrics.get(filename, {})` default is `[]`). -/
abbrev Rubric : Type := List (String × Int)

/-- The two external call outcomes for one artifact: what the initial and
the double-check invocation of the (absent) `evaluate_code_with_rubric`
return, as a function of filename, code and rubric. -/
def CallOracle : Type :=
  String → String → Rubric → Option EvalResult × Option EvalResult

/-- The per-file results collected by `evaluate_all_files`
(code_evaluator.py lines 102-121): every filename in `codes` is submitted,
with `rubrics.get(filename, {})` as its rubric. -/
def evaluation_results_of (oracle : CallOracle)
    (codes : List (String × String)) (rubrics : List (String × Rubric)) :
    List (String × EvalResult) :=
  codes.map (fun p =>
    let file_rubric := (List.lookup p.1 rubrics).getD []
    let calls := oracle p.1 p.2 file_rubric
    (evaluate_single_file p.1 calls.1 calls.2 0).1)

/-- One iteration of the token/call aggregation loop of
`evaluate_all_files` (code_evaluator.py lines 117-128): non-error results
add their token counts and a constant 2 to `llm_calls_count`. -/
def agg_step (a : Nat × Nat × Nat × Nat) (pr : String × EvalResult) :
    Nat × Nat × Nat × Nat :=
  if pr.2.status ≠ "error" then
    (a.1 + pr.2.input_tokens, a.2.1 + pr.2.output_tokens,
     a.2.2.1 + pr.2.total_tokens, a.2.2.2 + 2)
  else a

/-- The batch result dictionary returned by `evaluate_all_files`
(code_evaluator.py lines 179-190). -/
structure BatchResult where
  lab_feedback : List (String × LabFeedback)
  overall_feedback : String
  total_points_lost : Int
  file_results : List EvalResult
  evaluation_time : Rat
  files_evaluated : Nat
  total_input_tokens : Nat
  total_output_tokens : Nat
  total_tokens : Nat
  llm_calls_count : Nat
  deriving Repr

/-- `CodeEvaluator.evaluate_all_files` (code_evaluator.py lines 81-190),
with the external calls supplied by `oracle` and wall-clock times modelled
as 0.  Results are traversed in list order; the source collects them in
completion order, and every aggregate below is order-independent. -/
def evaluate_all_files (oracle : CallOracle) (codes : List (String × String))
    (rubrics : List (String × Rubric)) : BatchResult :=
  let evaluation_results := evaluation_results_of oracle codes rubrics
  let agg := evaluation_results.foldl agg_step (0, 0, 0, 0)
  let acc := evaluation_results.foldl format_step ⟨[], 0, [], []⟩
  let overall_feedback :=
    _create_overall_feedback_from_topics acc.all_topics_lacking
      acc.all_summaries acc.total_points_lost codes.length
  { lab_feedback := acc.lab_feedback
    overall_feedback := overall_feedback
    total_points_lost := acc.total_points_lost
    file_results := evaluation_results.map Prod.snd
    evaluation_time := 0
    files_evaluated := codes.length
    total_input_tokens := agg.1
    total_output_tokens := agg.2.1
    total_tokens := agg.2.2.1
    llm_calls_count := agg.2.2.2 }

/-- The insight record of `cache_utils.CacheInsights` (cache_utils.py lines
18-29); the three counters a single wrapper call can touch, plus the key
metadata. -/
structure CacheInsights where
  cache_hits : Nat := 0
  cache_misses : Nat := 0
  cache_sets : Nat := 0
  cache_errors : Nat := 0
  cache_key : Option String := none
  cache_type : Option String := none
  cache_ttl : Option Nat := none
  deriving DecidableEq, Repr

/-- The `cache_hit` flag of `CacheInsights.to_dict` (cache_utils.py line 34). -/
def CacheInsights.cache_hit (i : CacheInsights) : Bool :=
  i.cache_hits > 0

/-- The `cache_error` flag of `CacheInsights.to_dict` (cache_utils.py line 37). -/
def CacheInsights.cache_error (i : CacheInsights) : Bool :=
  i.cache_errors > 0

/-- `cache_utils.generate_cache_key` (cache_utils.py lines 50-56).  `args`
and `kwargs` stand for `str(args)` and `str(sorted(kwargs.items()))`; the
md5 hex digest is modelled by the hashed text itself (no collisions). -/
def generate_cache_key (pre args kwargs : String) : String :=
  pre ++ ":" ++ args ++ ":" ++ kwargs

/-- One stored cache entry: the value (`none` models a stored Python `None`)
and its absolute expiry instant. -/
structure CacheEntry (α : Type) where
  value : Option α
  expires_at : Nat
  deriving DecidableEq, Repr

/-- The backend's key space, a Django cache behind `caches[alias]`. -/
abbrev CacheState (α : Type) : Type := List (String × CacheEntry α)

/-- `cache.get(key)`: Django returns the default `None` for a missing or
expired key — indistinguishable from a stored `None`. -/
def cache_get {α : Type} (st : CacheState α) (k : String) (now : Nat) :
    Option α :=
  match List.lookup k st with
  | some e => if now < e.expires_at then e.value else none
  | none => none

/-- `cache.set(key, value, timeout)`: store under the key with expiry
`now + timeout`, overwriting in place. -/
def cache_set {α : Type} (st : CacheState α) (k : String) (v : Option α)
    (timeout now : Nat) : CacheState α :=
  if st.any (fun p => p.1 = k) then
    st.map (fun p => if p.1 = k then (k, ⟨v, now + timeout⟩) else p)
  else st ++ [(k, ⟨v, now + timeout⟩)]

/-- Failure modes of the cache backend: `get_raises` models
`caches[alias]`/`cache.get` raising (backend unavailable, the outer
`except` branch), `set_raises` models `cache.set` raising (the inner
`except` branch). -/
structure CacheBackend where
  get_raises : Bool
  set_raises : Bool
  deriving DecidableEq, Repr

/-- What one wrapper invocation produces: the value handed to the caller,
the local `CacheInsights` record, the backend state afterwards, and how
many times the wrapped function was executed during this invocation. -/
structure CacheCallResult (α : Type) where
  value : Option α
  insights : CacheInsights
  state : CacheState α
  fn_calls : Nat
  deriving Repr

/-- The wrapper body of `cache_utils.cache_db_query` (cache_utils.py lines
133-185), for one invocation of the decorated function.  `fnResult` is the
value the wrapped function returns when executed (`none` = Python `None`).
Hit: return the cached value, never executing `fn`.  Miss: execute `fn`,
attempt to store (a storage failure only marks the insight).  Lookup
failure: execute `fn` directly and mark the insight error — the cache
exception is swallowed, never propagated. -/
def cache_db_query {α : Type} (timeout : Nat) (backend : CacheBackend)
    (st : CacheState α) (now : Nat) (fname args kwargs : String)
    (fnResult : Option α) : CacheCallResult α :=
  let cache_key := generate_cache_key ("db:" ++ fname) args kwargs
  let ins0 : CacheInsights :=
    { cache_key := some cache_key, cache_type := some "db_query",
      cache_ttl := some timeout }
  if backend.get_raises then
    { value := fnResult, insights := { ins0 with cache_errors := 1 },
      state := st, fn_calls := 1 }
  else
    match cache_get st cache_key now with
    | some v =>
        { value := some v, insights := { ins0 with cache_hits := 1 },
          state := st, fn_calls := 0 }
    | none =>
        let ins1 := { ins0 with cache_misses := 1 }
        if backend.set_raises then
          { value := fnResult, insights := { ins1 with cache_errors := 1 },
            state := st, fn_calls := 1 }
        else
          { value := fnResult, insights := { ins1 with cache_sets := 1 },
            state := cache_set st cache_key fnResult timeout now, fn_calls := 1 }

/-- The first positional argument of a function wrapped by
`cache_llm_response`: a prompt string, a message list, or anything else
(including no positional arguments at all). -/
inductive PromptArg where
  | pstr (s : String)
  | plist (msgs : List (String × String))
  | pother
  deriving DecidableEq, Repr

/-- The prompt-content extraction of `cache_llm_response` (cache_utils.py
lines 196-206): a string argument is the prompt; in a message list the
last entry with role `"user"` supplies the content; otherwise `""`. -/
def extract_prompt_content : PromptArg → String
  | .pstr s => s
  | .plist msgs =>
      match msgs.reverse.find? (fun m => m.1 = "user") with
      | some m => m.2
      | none => ""
  | .pother => ""

/-- The wrapper body of `cache_utils.cache_llm_response` (cache_utils.py
lines 187-251): identical control flow to `cache_db_query`, but the key is
derived from the extracted prompt content rather than the positional
arguments. -/
def cache_llm_response {α : Type} (timeout : Nat) (backend : CacheBackend)
    (st : CacheState α) (now : Nat) (fname : String) (arg0 : PromptArg)
    (kwargs : String) (fnResult : Option α) : CacheCallResult α :=
  let prompt_content := extract_prompt_content arg0
  let cache_key := generate_cache_key ("llm:" ++ fname) prompt_content kwargs
  let ins0 : CacheInsights :=
    { cache_key := some cache_key, cache_type := some "llm_response",
      cache_ttl := some timeout }
  if backend.get_raises then
    { value := fnResult, insights := { ins0 with cache_errors := 1 },
      state := st, fn_calls := 1 }
  else
    match cache_get st cache_key now with
    | some v =>
        { value := some v, insights := { ins0 with cache_hits := 1 },
          state := st, fn_calls := 0 }
    | none =>
        let ins1 := { ins0 with cache_misses := 1 }
        if backend.set_raises then
          { value := fnResult, insights := { ins1 with cache_errors := 1 },
            state := st, fn_calls := 1 }
        else
          { value := fnResult, insights := { ins1 with cache_sets := 1 },
            state := cache_set st cache_key fnResult timeout now, fn_calls := 1 }

/-! ## Derived per-result quantities and fold lemmas -/

/-- The sum of deduction points over an issues list, per-issue normalised by
`abs(issue.get('points', 2))` exactly as the batch formatting loop does. -/
def sum_deductions (l : List Issue) : Int :=
  (l.map (fun i => |i.points.getD 2|)).sum

/-- The point contribution of one `'result'` value to the batch total. -/
def points_of_result_data : ResultData → Int
  | .correct => 0
  | .data issues => (format_issues issues).2

/-- What one per-artifact result contributes to the recomputed batch total:
the formatting loop's `file_points_lost` for a non-error result (computed
from its `'result'` issues, not from its own `total_points_lost` field) and
0 for an error result. -/
def file_points_lost (r : EvalResult) : Int :=
  if r.status ≠ "error" then points_of_result_data (r.result.getD (.data []))
  else 0

/-- The non-error verdicts of a collected result list. -/
def non_error_results (l : List (String × EvalResult)) : List EvalResult :=
  (l.map Prod.snd).filter (fun r => r.status != "error")

lemma non_error_results_nil : non_error_results [] = [] := rfl

lemma non_error_results_cons (p : String × EvalResult)
    (l : List (String × EvalResult)) :
    non_error_results (p :: l) =
      if p.2.status = "error" then non_error_results l
      else p.2 :: non_error_results l := by
  by_cases h : p.2.status = "error" <;>
    simp [non_error_results, List.filter_cons, h]

lemma foldl_agg_step (l : List (String × EvalResult))
    (a : Nat × Nat × Nat × Nat) :
    l.foldl agg_step a =
      (a.1 + ((non_error_results l).map (fun r => r.input_tokens)).sum,
       a.2.1 + ((non_error_results l).map (fun r => r.output_tokens)).sum,
       a.2.2.1 + ((non_error_results l).map (fun r => r.total_tokens)).sum,
       a.2.2.2 + 2 * (non_error_results l).length) := by
  induction l generalizing a with
  | nil => simp [non_error_results_nil]
  | cons p l ih =>
      rw [List.foldl_cons, ih, non_error_results_cons]
      by_cases h : p.2.status = "error"
      · simp [agg_step, h]
      · simp only [agg_step, h, if_pos, ne_eq, not_false_iff, if_true,
          List.map_cons, List.sum_cons, List.length_cons]
        refine Prod.ext ?_ (Prod.ext ?_ (Prod.ext ?_ ?_)) <;> simp <;> omega

lemma format_step_total (acc : BatchAcc) (pr : String × EvalResult) :
    (format_step acc pr).total_points_lost =
      acc.total_points_lost + file_points_lost pr.2 := by
  unfold format_step file_points_lost
  by_cases h : pr.2.status = "error"
  · simp [h]
  · simp only [h, ne_eq, not_false_iff, if_true, if_false]
    cases hr : pr.2.result.getD (.data []) with
    | correct => simp [points_of_result_data, apply_ite]
    | data issues =>
        by_cases he : issues.isEmpty
        · have : issues = [] := by simpa using he
          simp [points_of_result_data, he, this, format_issues, apply_ite]
        · simp [points_of_result_data, he, apply_ite]

lemma foldl_format_step_total (l : List (String × EvalResult))
    (acc : BatchAcc) :
    (l.foldl format_step acc).total_points_lost =
      acc.total_points_lost + (l.map (fun pr => file_points_lost pr.2)).sum := by
  induction l generalizing acc with
  | nil => simp
  | cons p l ih =>
      rw [List.foldl_cons, ih, format_step_total, List.map_cons, List.sum_cons]
      omega

lemma format_step_error (acc : BatchAcc) (pr : String × EvalResult)
    (h : pr.2.status = "error") :
    format_step acc pr =
      { acc with lab_feedback :=
          acc.lab_feedback ++
            [(pr.1, LabFeedback.text ("Error - " ++ pyStr pr.2.feedback))] } := by
  simp [format_step, h]

lemma foldl_format_step_all_error (l : List (String × EvalResult))
    (acc : BatchAcc) (h : ∀ p ∈ l, p.2.status = "error") :
    (l.foldl format_step acc).all_topics_lacking = acc.all_topics_lacking ∧
    (l.foldl format_step acc).total_points_lost = acc.total_points_lost ∧
    (l.foldl format_step acc).all_summaries = acc.all_summaries := by
  induction l generalizing acc with
  | nil => exact ⟨rfl, rfl, rfl⟩
  | cons p l ih =>
      rw [List.foldl_cons, format_step_error acc p (h p (by simp))]
      exact ih _ (fun q hq => h q (by simp [hq]))

lemma lookup_cache_set {α : Type} (st : CacheState α) (k : String)
    (v : Option α) (timeout now : Nat) :
    List.lookup k (cache_set st k v timeout now) =
      some ⟨v, now + timeout⟩ := by
  unfold cache_set
  induction st with
  | nil => simp [List.lookup]
  | cons p st ih =>
      obtain ⟨pk, pv⟩ := p
      by_cases hp : pk = k
      · subst hp
        simp [List.any_cons, List.lookup_cons]
      · have hk : (k == pk) = false := by
          simp [beq_iff_eq]
          exact fun h => hp h.symm
        by_cases hs : st.any (fun q => q.1 = k)
        · have hc : ((pk, pv) :: st).any (fun q => q.1 = k) = true := by
            simp [List.any_cons, hs]
          rw [if_pos hc, List.map_cons]
          have hhead :
              (if ((pk, pv) : String × CacheEntry α).1 = k then
                (k, (⟨v, now + timeout⟩ : CacheEntry α)) else (pk, pv)) = (pk, pv) := by
            simp [hp]
          rw [hhead, List.lookup_cons, hk]
          rw [if_pos hs] at ih
          exact ih
        · have hc : ((pk, pv) :: st).any (fun q => q.1 = k) = false := by
            simp only [List.any_cons, Bool.or_eq_false_iff, decide_eq_false_iff_not]
            exact ⟨hp, by revert hs; cases st.any (fun q => q.1 = k) <;> simp⟩
          rw [if_neg (by simp [hc]), List.cons_append, List.lookup_cons, hk]
          rw [if_neg hs] at ih
          exact ih

lemma cache_get_cache_set {α : Type} (st : CacheState α) (k : String)
    (v : Option α) (timeout t1 t2 : Nat) (h : t2 < t1 + timeout) :
    cache_get (cache_set st k v timeout t1) k t2 = v := by
  unfold cache_get
  rw [lookup_cache_set]
  simp [h]

/-! ## Sample results used by concrete counterexamples and witnesses -/

/-- A success result exactly as the parser shapes it for a graded
(non-perfect) JSON response: nonzero parsed `points_lost`, empty
`deductions` list. -/
def sample_success_3 : EvalResult :=
  { filename := "a.py", status := "success", feedback := .str "bad",
    total_points_lost := 3, deductions := [] }

/-- A success result carrying one issue under its `'result'` key, the shape
the batch formatting loop reads. -/
def sample_success_issues : EvalResult :=
  { filename := "a.py", status := "success",
    feedback := .str "1. Missing loop --> -3 points",
    total_points_lost := 3, deductions := [],
    result := some (.data [⟨some "Missing loop", some 3⟩]) }

/-- An error-status result that nevertheless lists one deduction.  No
constructor of this codebase produces such a value, but the double-pass
selection accepts arbitrary result dictionaries. -/
def sample_error_with_deduction : EvalResult :=
  { filename := "a.py", status := "error", feedback := .str "Error: boom",
    total_points_lost := 0, deductions := [⟨some "x", some 2⟩] }

/-! ## C1 — the per-verdict points invariant -/

/-- C1 (amended): every result produced by the parser or the error
constructors carries an empty `deductions` list, and every error-status
result has `total_points_lost = 0`.  The success half of the claimed
invariant does not hold: a success verdict's `total_points_lost` is the
integer parsed from the response, which need not equal the (necessarily 0)
sum over its empty `deductions` list and may even be negative — see the
counterexample. -/
theorem C1_points_invariant :
    (∀ fn msg, (_create_error_result fn msg).status = "error" ∧
      (_create_error_result fn msg).total_points_lost = 0 ∧
      (_create_error_result fn msg).deductions = []) ∧
    (∀ et msg, (_create_error_response et msg).status = "error" ∧
      (_create_error_response et msg).total_points_lost = 0 ∧
      (_create_error_response et msg).deductions = []) ∧
    (∀ (loads : String → JsonOutcome) (resp fn : String),
      (_parse_evaluation_response loads resp fn).deductions = [] ∧
      ((_parse_evaluation_response loads resp fn).status = "error" →
        (_parse_evaluation_response loads resp fn).total_points_lost = 0)) := by
  refine ⟨fun fn msg => ⟨rfl, rfl, rfl⟩, fun et msg => ⟨rfl, rfl, rfl⟩,
    fun loads resp fn => ?_⟩
  rcases h : loads (py_strip resp) with _ | em | ⟨fb, pl⟩ <;>
    simp [_parse_evaluation_response, h, _create_error_response]

/-- C1 counterexample: on the very response shape the repo's own prompt
requests (`feedback` plus `points_lost`), the parser returns a success
verdict whose `total_points_lost` (3) differs from the sum over its empty
`deductions` list (0); with a negative `points_lost` the verdict's points
lost is negative, refuting non-negativity as well. -/
theorem C1_counterexample :
    (_parse_evaluation_response
        (fun _ => JsonOutcome.object (some (PyJson.str "bad")) (some (PyJson.int 3)))
        "\x7b\"feedback\": \"bad\", \"points_lost\": 3\x7d" "f.py").status = "success" ∧
    (_parse_evaluation_response
        (fun _ => JsonOutcome.object (some (PyJson.str "bad")) (some (PyJson.int 3)))
        "\x7b\"feedback\": \"bad\", \"points_lost\": 3\x7d" "f.py").total_points_lost = 3 ∧
    sum_deductions (_parse_evaluation_response
        (fun _ => JsonOutcome.object (some (PyJson.str "bad")) (some (PyJson.int 3)))
        "\x7b\"feedback\": \"bad\", \"points_lost\": 3\x7d" "f.py").deductions = 0 ∧
    (_parse_evaluation_response
        (fun _ => JsonOutcome.object (some (PyJson.str "bad")) (some (PyJson.int (-3))))
        "\x7b\"feedback\": \"bad\", \"points_lost\": -3\x7d" "f.py").total_points_lost = -3 := by
  decide

/-- C1 witness: the error half of the (amended) invariant at a concrete
parse that ends in the `PARSE_ERROR` envelope. -/
theorem C1_witness :
    (_parse_evaluation_response
        (fun _ => JsonOutcome.nonObject "int object has no attribute get")
        "3" "f.py").deductions = [] ∧
    (_parse_evaluation_response
        (fun _ => JsonOutcome.nonObject "int object has no attribute get")
        "3" "f.py").total_points_lost = 0 := by
  have h := C1_points_invariant.2.2
    (fun _ => JsonOutcome.nonObject "int object has no attribute get") "3" "f.py"
  exact ⟨h.1, h.2 (by decide)⟩

/-! ## C3 — double-pass reconciliation -/

/-- C3 (amended): with both calls returning results, the double-check
result is selected iff (a) the initial is an error and the double-check is
not, or (b) the double-check lists strictly more deductions; otherwise the
initial is kept.  The claimed corollary — the non-error one of two results,
exactly one erroring, is *always* selected — needs the extra hypothesis
that the error-status result's deductions list is not longer than the
other's (true of every error result this code constructs, whose deductions
list is empty): rule (b) can otherwise select an error result over a
non-error initial, see the counterexample. -/
theorem C3_reconciliation :
    ∀ (fn : String) (ir dc : EvalResult) (elapsed : Rat),
      (ir.status = "error" ∧ dc.status ≠ "error" →
        (evaluate_single_file fn (some ir) (some dc) elapsed).1.2 =
          { dc with evaluation_time_seconds := elapsed }) ∧
      (¬(ir.status = "error" ∧ dc.status ≠ "error") →
        dc.deductions.length > ir.deductions.length →
        (evaluate_single_file fn (some ir) (some dc) elapsed).1.2 =
          { dc with evaluation_time_seconds := elapsed }) ∧
      (¬(ir.status = "error" ∧ dc.status ≠ "error") →
        ¬(dc.deductions.length > ir.deductions.length) →
        (evaluate_single_file fn (some ir) (some dc) elapsed).1.2 =
          { ir with evaluation_time_seconds := elapsed }) ∧
      (ir.status ≠ "error" → dc.status = "error" →
        dc.deductions.length ≤ ir.deductions.length →
        (evaluate_single_file fn (some ir) (some dc) elapsed).1.2 =
          { ir with evaluation_time_seconds := elapsed }) := by
  intro fn ir dc elapsed
  refine ⟨fun h => ?_, fun h1 h2 => ?_, fun h1 h2 => ?_, fun h1 h2 h3 => ?_⟩
  · simp [evaluate_single_file, h]
  · simp [evaluate_single_file, h1, h2]
  · simp [evaluate_single_file, h1, h2]
  · have hna : ¬(ir.status = "error" ∧ dc.status ≠ "error") := fun hc => h1 hc.1
    have hnb : ¬(dc.deductions.length > ir.deductions.length) := by omega
    simp [evaluate_single_file, hna, hnb]

/-- C3 counterexample: an error-status double-check listing one deduction
is selected by rule (b) over a non-error initial with none — so of two
results where exactly one errors, the selected one is the *error* one,
refuting the claim's closing corollary. -/
theorem C3_counterexample :
    sample_success_3.status ≠ "error" ∧
    sample_error_with_deduction.status = "error" ∧
    (evaluate_single_file "a.py" (some sample_success_3)
        (some sample_error_with_deduction) 0).1.2 =
      { sample_error_with_deduction with evaluation_time_seconds := 0 } := by
  decide

/-- C3 witness: rule (a) at concrete inputs — an erroring initial result is
replaced by the non-error double-check. -/
theorem C3_witness :
    (evaluate_single_file "a.py" (some sample_error_with_deduction)
        (some sample_success_3) 0).1.2 =
      { sample_success_3 with evaluation_time_seconds := 0 } :=
  (C3_reconciliation "a.py" sample_error_with_deduction sample_success_3 0).1
    (by decide)

/-! ## C6 — fallback parsing of non-JSON text -/

/-- C6 (amended): for any input whose stripped text fails strict JSON
decoding, the parser returns — without raising — a success-shaped result
whose feedback is the stripped raw text, with zero points lost and an
*empty* issues list.  There is no line-scanning fallback: deduction-marker
lines such as `"Missing loop --> -3 points"` yield no Issue at all (see
the counterexample). -/
theorem C6_fallback :
    ∀ (loads : String → JsonOutcome) (resp fn : String),
      loads (py_strip resp) = JsonOutcome.failure →
      _parse_evaluation_response loads resp fn =
        { filename := fn, status := "success", feedback := .str (py_strip resp),
          total_points_lost := 0, deductions := [],
          raw_response := some (py_strip resp) } := by
  intro loads resp fn h
  simp [_parse_evaluation_response, h]

/-- C6 counterexample: the exact malformed text from the claim fails JSON
decoding, yet the parse result carries no Issue and a zero deduction,
refuting "at least one Issue with a non-zero point deduction". -/
theorem C6_counterexample :
    (_parse_evaluation_response (fun _ => JsonOutcome.failure)
        "Missing loop --> -3 points" "f.py").deductions = [] ∧
    (_parse_evaluation_response (fun _ => JsonOutcome.failure)
        "Missing loop --> -3 points" "f.py").total_points_lost = 0 ∧
    (_parse_evaluation_response (fun _ => JsonOutcome.failure)
        "Missing loop --> -3 points" "f.py").status = "success" := by
  decide

/-- C6 witness: the amended fallback behavior at the claim's concrete
malformed input. -/
theorem C6_witness :
    _parse_evaluation_response (fun _ => JsonOutcome.failure)
        "Missing loop --> -3 points" "f.py" =
      { filename := "f.py", status := "success",
        feedback := .str "Missing loop --> -3 points",
        total_points_lost := 0, deductions := [],
        raw_response := some "Missing loop --> -3 points" } := by
  have h := C6_fallback (fun _ => JsonOutcome.failure)
    "Missing loop --> -3 points" "f.py" rfl
  exact h.trans (by decide)

/-! ## C8 — null initial result -/

/-- C8 (amended): a null/falsy initial result does not abort evaluation
with an exception, but neither is the double-check path pursued: the
artifact immediately receives the `"Failed to get initial evaluation"`
error verdict after a single external call.  Null-tolerance in the claimed
direction exists only for the *double-check* call: a null double-check
after a non-null initial keeps the initial result (second conjunct). -/
theorem C8_null_initial :
    (∀ (fn : String) (dc : Option EvalResult) (elapsed : Rat),
      evaluate_single_file fn none dc elapsed =
        ((fn, _create_error_result fn "Failed to get initial evaluation"), 1)) ∧
    (∀ (fn : String) (ir : EvalResult) (elapsed : Rat),
      evaluate_single_file fn (some ir) none elapsed =
        ((fn, { ir with evaluation_time_seconds := elapsed }), 2)) :=
  ⟨fun _ _ _ => rfl, fun _ _ _ => rfl⟩

/-- C8 counterexample: with a null initial result and a perfectly good
double-check result available, the verdict is the error envelope after one
call — the double-check is never consulted, refuting "the double-check
call is still pursued to produce the verdict". -/
theorem C8_counterexample :
    (evaluate_single_file "a.py" none (some sample_success_3) 0).2 = 1 ∧
    (evaluate_single_file "a.py" none (some sample_success_3) 0).1.2.status = "error" ∧
    sample_success_3.status = "success" ∧
    (evaluate_single_file "a.py" none (some sample_success_3) 0).1.2 ≠
      { sample_success_3 with evaluation_time_seconds := 0 } := by
  decide

/-! ## C2 — the batch point total -/

/-- C2 (amended): the reported `total_points_lost` is the sum, over exactly
the non-error verdicts, of the points *recomputed* from each verdict's
`result.issues` list (`Σ abs(points, default 2)`), not of the verdict's own
`total_points_lost` field; error verdicts contribute 0.  The claim's
reading — summing each non-error verdict's points lost — fails because the
verdict's own `total_points_lost` field is ignored by the aggregation, see
the counterexample. -/
theorem C2_total_points :
    (∀ (oracle : CallOracle) (codes : List (String × String))
        (rubrics : List (String × Rubric)),
      (evaluate_all_files oracle codes rubrics).total_points_lost =
        ((evaluation_results_of oracle codes rubrics).map
          (fun pr => file_points_lost pr.2)).sum) ∧
    (∀ r : EvalResult, r.status = "error" → file_points_lost r = 0) := by
  constructor
  · intro oracle codes rubrics
    simp only [evaluate_all_files]
    rw [foldl_format_step_total]
    simp
  · intro r h
    simp [file_points_lost, h]

/-- C2 counterexample: a batch with one success verdict whose parsed
`total_points_lost` is 3 but whose `'result'` key is absent reports a batch
total of 0, while the sum of points lost over its non-error verdicts is 3. -/
theorem C2_counterexample :
    (evaluate_all_files (fun _ _ _ => (some sample_success_3, none))
        [("a.py", "x")] []).total_points_lost = 0 ∧
    (((evaluate_all_files (fun _ _ _ => (some sample_success_3, none))
        [("a.py", "x")] []).file_results.filter
          (fun r => r.status != "error")).map
            (fun r => r.total_points_lost)).sum = 3 ∧
    (evaluate_all_files (fun _ _ _ => (some sample_success_3, none))
        [("a.py", "x")] []).total_points_lost ≠
      (((evaluate_all_files (fun _ _ _ => (some sample_success_3, none))
          [("a.py", "x")] []).file_results.filter
            (fun r => r.status != "error")).map
              (fun r => r.total_points_lost)).sum := by
  decide

/-- C2 witness: an error verdict contributes 0 to the recomputed total. -/
theorem C2_witness :
    file_points_lost (_create_error_result "a.py" "boom") = 0 :=
  C2_total_points.2 (_create_error_result "a.py" "boom") rfl

/-! ## C7 — error verdicts and the overall feedback -/

/-- C7 (amended): error verdicts never influence the overall feedback.  The
batch feedback is produced by `_create_overall_feedback_from_topics` from
the topics and recomputed points of *non-error* verdicts only; the
error-priority framing the claim describes exists nowhere on this path.  In
particular a batch all of whose verdicts error (hence no topics, zero
recomputed points) receives the all-clean success message. -/
theorem C7_error_feedback :
    ∀ (oracle : CallOracle) (codes : List (String × String))
      (rubrics : List (String × Rubric)),
      (∀ pr ∈ evaluation_results_of oracle codes rubrics, pr.2.status = "error") →
      (evaluate_all_files oracle codes rubrics).overall_feedback =
        "Student demonstrates excellent understanding of core programming concepts. All labs completed successfully!" := by
  intro oracle codes rubrics h
  simp only [evaluate_all_files]
  obtain ⟨ht, hp, _⟩ :=
    foldl_format_step_all_error (evaluation_results_of oracle codes rubrics)
      ⟨[], 0, [], []⟩ h
  simp [_create_overall_feedback_from_topics, ht, hp]

/-- C7 counterexample: a batch whose single artifact errors produces the
all-clean "excellent understanding" message — a feedback string that does
not even contain "rror", refuting "reports the count of erroring artifacts
and the running point total". -/
theorem C7_counterexample :
    ((evaluate_all_files (fun _ _ _ => (none, none))
        [("a.py", "x")] []).file_results.map (fun r => r.status)) = ["error"] ∧
    (evaluate_all_files (fun _ _ _ => (none, none))
        [("a.py", "x")] []).overall_feedback =
      "Student demonstrates excellent understanding of core programming concepts. All labs completed successfully!" ∧
    (evaluate_all_files (fun _ _ _ => (none, none))
        [("a.py", "x")] []).overall_feedback ≠
      "Student has evaluation errors in 1 labs. Total points lost: 0." ∧
    ¬ List.IsInfix "rror".data
        ((evaluate_all_files (fun _ _ _ => (none, none))
          [("a.py", "x")] []).overall_feedback.data) := by
  set_option maxRecDepth 4000 in decide

/-- C7 witness: the amended statement at the concrete all-error batch. -/
theorem C7_witness :
    (evaluate_all_files (fun _ _ _ => (none, none))
        [("b.py", "y")] []).overall_feedback =
      "Student demonstrates excellent understanding of core programming concepts. All labs completed successfully!" :=
  C7_error_feedback (fun _ _ _ => (none, none)) [("b.py", "y")] [] (by decide)

/-! ## C9 — artifacts without a rubric -/

/-- C9 (amended): an artifact whose name has no rubric is *not* skipped:
`rubrics.get(filename, {})` substitutes the empty rubric and the artifact
is evaluated like any other, producing a verdict that appears in the batch
(so it is indeed never a fatal error for the batch, but a graded verdict
is produced rather than a logged omission). -/
theorem C9_missing_rubric :
    ∀ (oracle : CallOracle) (codes : List (String × String))
      (rubrics : List (String × Rubric)) (p : String × String),
      p ∈ codes → List.lookup p.1 rubrics = none →
      (evaluate_single_file p.1 (oracle p.1 p.2 []).1 (oracle p.1 p.2 []).2 0).1
        ∈ evaluation_results_of oracle codes rubrics ∧
      (evaluate_all_files oracle codes rubrics).files_evaluated = codes.length := by
  intro oracle codes rubrics p hp hr
  refine ⟨?_, rfl⟩
  unfold evaluation_results_of
  refine List.mem_map.mpr ⟨p, hp, ?_⟩
  simp only [hr, Option.getD_none]

/-- C9 counterexample: a batch containing an artifact with no rubric still
evaluates it — the batch carries a graded verdict (one formatted issue,
3 points lost) for that artifact, refuting "it is not evaluated and
produces no graded verdict". -/
theorem C9_counterexample :
    List.lookup "a.py" ([] : List (String × Rubric)) = none ∧
    (evaluate_all_files (fun _ _ _ => (some sample_success_issues, none))
        [("a.py", "x")] []).file_results.length = 1 ∧
    List.lookup "a.py"
        (evaluate_all_files (fun _ _ _ => (some sample_success_issues, none))
          [("a.py", "x")] []).lab_feedback =
      some (LabFeedback.entries [("Missing loop", "-3 points")]) ∧
    (evaluate_all_files (fun _ _ _ => (some sample_success_issues, none))
        [("a.py", "x")] []).total_points_lost = 3 := by
  decide

/-- C9 witness: the amended statement at the concrete rubric-less batch. -/
theorem C9_witness :
    (evaluate_single_file "a.py"
        ((fun (_ : String) (_ : String) (_ : Rubric) =>
          (some sample_success_issues, (none : Option EvalResult))) "a.py" "x" []).1
        ((fun (_ : String) (_ : String) (_ : Rubric) =>
          (some sample_success_issues, (none : Option EvalResult))) "a.py" "x" []).2 0).1
      ∈ evaluation_results_of
          (fun _ _ _ => (some sample_success_issues, none)) [("a.py", "x")] [] ∧
    (evaluate_all_files (fun _ _ _ => (some sample_success_issues, none))
        [("a.py", "x")] []).files_evaluated = 1 :=
  C9_missing_rubric (fun _ _ _ => (some sample_success_issues, none))
    [("a.py", "x")] [] ("a.py", "x") (by decide) (by decide)

/-! ## C10 — token and call accounting -/

/-- C10 (confirmed): the aggregate token counters accumulate exactly the
token fields of the non-error verdicts, and `llm_calls_count` is exactly 2
per non-error verdict — a function of the collected results alone, so in
particular independent of how many external calls an artifact really made
(the count is the same when the double-check call returned null and only
one call was issued). -/
theorem C10_token_call_accounting :
    ∀ (oracle : CallOracle) (codes : List (String × String))
      (rubrics : List (String × Rubric)),
      (evaluate_all_files oracle codes rubrics).total_input_tokens =
        ((non_error_results (evaluation_results_of oracle codes rubrics)).map
          (fun r => r.input_tokens)).sum ∧
      (evaluate_all_files oracle codes rubrics).total_output_tokens =
        ((non_error_results (evaluation_results_of oracle codes rubrics)).map
          (fun r => r.output_tokens)).sum ∧
      (evaluate_all_files oracle codes rubrics).total_tokens =
        ((non_error_results (evaluation_results_of oracle codes rubrics)).map
          (fun r => r.total_tokens)).sum ∧
      (evaluate_all_files oracle codes rubrics).llm_calls_count =
        2 * (non_error_results (evaluation_results_of oracle codes rubrics)).length := by
  intro oracle codes rubrics
  refine ⟨?_, ?_, ?_, ?_⟩ <;>
    · simp only [evaluate_all_files]
      rw [foldl_agg_step]
      simp

/-! ## Cache wrapper behavior lemmas -/

lemma cache_db_query_miss {α : Type} (timeout : Nat) (backend : CacheBackend)
    (st : CacheState α) (now : Nat) (fname args kwargs : String)
    (r : Option α) (hg : backend.get_raises = false)
    (hs : backend.set_raises = false)
    (hm : cache_get st (generate_cache_key ("db:" ++ fname) args kwargs) now = none) :
    cache_db_query timeout backend st now fname args kwargs r =
      { value := r
        insights :=
          { cache_misses := 1, cache_sets := 1
            cache_key := some (generate_cache_key ("db:" ++ fname) args kwargs)
            cache_type := some "db_query", cache_ttl := some timeout }
        state := cache_set st (generate_cache_key ("db:" ++ fname) args kwargs) r timeout now
        fn_calls := 1 } := by
  simp [cache_db_query, hg, hs, hm]

lemma cache_db_query_hit {α : Type} (timeout : Nat) (backend : CacheBackend)
    (st : CacheState α) (now : Nat) (fname args kwargs : String)
    (r : Option α) (v : α) (hg : backend.get_raises = false)
    (hh : cache_get st (generate_cache_key ("db:" ++ fname) args kwargs) now = some v) :
    cache_db_query timeout backend st now fname args kwargs r =
      { value := some v
        insights :=
          { cache_hits := 1
            cache_key := some (generate_cache_key ("db:" ++ fname) args kwargs)
            cache_type := some "db_query", cache_ttl := some timeout }
        state := st
        fn_calls := 0 } := by
  simp [cache_db_query, hg, hh]

lemma cache_llm_response_miss {α : Type} (timeout : Nat) (backend : CacheBackend)
    (st : CacheState α) (now : Nat) (fname : String) (arg0 : PromptArg)
    (kwargs : String) (r : Option α) (hg : backend.get_raises = false)
    (hs : backend.set_raises = false)
    (hm : cache_get st
      (generate_cache_key ("llm:" ++ fname) (extract_prompt_content arg0) kwargs) now = none) :
    cache_llm_response timeout backend st now fname arg0 kwargs r =
      { value := r
        insights :=
          { cache_misses := 1, cache_sets := 1
            cache_key := some (generate_cache_key ("llm:" ++ fname)
              (extract_prompt_content arg0) kwargs)
            cache_type := some "llm_response", cache_ttl := some timeout }
        state := cache_set st
          (generate_cache_key ("llm:" ++ fname) (extract_prompt_content arg0) kwargs)
          r timeout now
        fn_calls := 1 } := by
  simp [cache_llm_response, hg, hs, hm]

lemma cache_llm_response_hit {α : Type} (timeout : Nat) (backend : CacheBackend)
    (st : CacheState α) (now : Nat) (fname : String) (arg0 : PromptArg)
    (kwargs : String) (r : Option α) (v : α) (hg : backend.get_raises = false)
    (hh : cache_get st
      (generate_cache_key ("llm:" ++ fname) (extract_prompt_content arg0) kwargs) now = some v) :
    cache_llm_response timeout backend st now fname arg0 kwargs r =
      { value := some v
        insights :=
          { cache_hits := 1
            cache_key := some (generate_cache_key ("llm:" ++ fname)
              (extract_prompt_content arg0) kwargs)
            cache_type := some "llm_response", cache_ttl := some timeout }
        state := st
        fn_calls := 0 } := by
  simp [cache_llm_response, hg, hh]

/-! ## C4 — cache wrapper idempotence -/

/-- C4 (amended): for both wrappers, two calls with identical function and
arguments within the TTL window — backend available, first lookup a miss,
first result stored — execute the wrapped function exactly once *provided
the first call's computed result is not `None`*: the first call executes it
and stores the result, the second call is a hit (insight `cache_hit=true`)
returning the cached value without executing the function.  For a `None`
result the hypothesis fails: a stored `None` is indistinguishable from a
miss at lookup, so the function runs again — see the counterexample. -/
theorem C4_cache_idempotence :
    (∀ (α : Type) (backend : CacheBackend) (st : CacheState α)
        (timeout t1 t2 : Nat) (fname args kwargs : String) (v : α),
      backend.get_raises = false → backend.set_raises = false →
      t2 < t1 + timeout →
      cache_get st (generate_cache_key ("db:" ++ fname) args kwargs) t1 = none →
      (cache_db_query timeout backend st t1 fname args kwargs (some v)).fn_calls = 1 ∧
      (cache_db_query timeout backend st t1 fname args kwargs (some v)).value = some v ∧
      (cache_db_query timeout backend
          (cache_db_query timeout backend st t1 fname args kwargs (some v)).state
          t2 fname args kwargs (some v)).fn_calls = 0 ∧
      (cache_db_query timeout backend
          (cache_db_query timeout backend st t1 fname args kwargs (some v)).state
          t2 fname args kwargs (some v)).value = some v ∧
      (cache_db_query timeout backend
          (cache_db_query timeout backend st t1 fname args kwargs (some v)).state
          t2 fname args kwargs (some v)).insights.cache_hit = true) ∧
    (∀ (α : Type) (backend : CacheBackend) (st : CacheState α)
        (timeout t1 t2 : Nat) (fname : String) (arg0 : PromptArg)
        (kwargs : String) (v : α),
      backend.get_raises = false → backend.set_raises = false →
      t2 < t1 + timeout →
      cache_get st
        (generate_cache_key ("llm:" ++ fname) (extract_prompt_content arg0) kwargs) t1 = none →
      (cache_llm_response timeout backend st t1 fname arg0 kwargs (some v)).fn_calls = 1 ∧
      (cache_llm_response timeout backend st t1 fname arg0 kwargs (some v)).value = some v ∧
      (cache_llm_response timeout backend
          (cache_llm_response timeout backend st t1 fname arg0 kwargs (some v)).state
          t2 fname arg0 kwargs (some v)).fn_calls = 0 ∧
      (cache_llm_response timeout backend
          (cache_llm_response timeout backend st t1 fname arg0 kwargs (some v)).state
          t2 fname arg0 kwargs (some v)).value = some v ∧
      (cache_llm_response timeout backend
          (cache_llm_response timeout backend st t1 fname arg0 kwargs (some v)).state
          t2 fname arg0 kwargs (some v)).insights.cache_hit = true) := by
  constructor
  · intro α backend st timeout t1 t2 fname args kwargs v hg hs ht hm
    rw [cache_db_query_miss timeout backend st t1 fname args kwargs (some v) hg hs hm]
    have hh : cache_get
        (cache_set st (generate_cache_key ("db:" ++ fname) args kwargs) (some v) timeout t1)
        (generate_cache_key ("db:" ++ fname) args kwargs) t2 = some v :=
      cache_get_cache_set st _ (some v) timeout t1 t2 ht
    rw [cache_db_query_hit timeout backend _ t2 fname args kwargs (some v) v hg hh]
    exact ⟨rfl, rfl, rfl, rfl, rfl⟩
  · intro α backend st timeout t1 t2 fname arg0 kwargs v hg hs ht hm
    rw [cache_llm_response_miss timeout backend st t1 fname arg0 kwargs (some v) hg hs hm]
    have hh : cache_get
        (cache_set st
          (generate_cache_key ("llm:" ++ fname) (extract_prompt_content arg0) kwargs)
          (some v) timeout t1)
        (generate_cache_key ("llm:" ++ fname) (extract_prompt_content arg0) kwargs) t2 = some v :=
      cache_get_cache_set st _ (some v) timeout t1 t2 ht
    rw [cache_llm_response_hit timeout backend _ t2 fname arg0 kwargs (some v) v hg hh]
    exact ⟨rfl, rfl, rfl, rfl, rfl⟩

/-- C4 counterexample: a wrapped function returning Python `None` (as the
repo's own `create_chat_completion` does on any API error) breaks
idempotence.  The first call misses and successfully stores `None`
(`cache_sets = 1`), yet the second identical call within the TTL window
misses again — `cache_hit` is `false` and the function is executed a second
time, refuting "executes the underlying function exactly once". -/
theorem C4_counterexample :
    (cache_db_query 100 ⟨false, false⟩ ([] : CacheState Nat) 0 "q" "(1,)" "[]" none).insights.cache_sets = 1 ∧
    (cache_db_query 100 ⟨false, false⟩ ([] : CacheState Nat) 0 "q" "(1,)" "[]" none).fn_calls = 1 ∧
    (cache_db_query 100 ⟨false, false⟩
        (cache_db_query 100 ⟨false, false⟩ ([] : CacheState Nat) 0 "q" "(1,)" "[]" none).state
        50 "q" "(1,)" "[]" none).fn_calls = 1 ∧
    (cache_db_query 100 ⟨false, false⟩
        (cache_db_query 100 ⟨false, false⟩ ([] : CacheState Nat) 0 "q" "(1,)" "[]" none).state
        50 "q" "(1,)" "[]" none).insights.cache_hit = false := by
  decide

/-- C4 witness: the amended idempotence at concrete inputs, for both
wrappers. -/
theorem C4_witness :
    (cache_db_query 100 ⟨false, false⟩ ([] : CacheState Nat) 0 "q" "(1,)" "[]" (some 7)).fn_calls = 1 ∧
    (cache_db_query 100 ⟨false, false⟩
        (cache_db_query 100 ⟨false, false⟩ ([] : CacheState Nat) 0 "q" "(1,)" "[]" (some 7)).state
        50 "q" "(1,)" "[]" (some 7)).fn_calls = 0 ∧
    (cache_db_query 100 ⟨false, false⟩
        (cache_db_query 100 ⟨false, false⟩ ([] : CacheState Nat) 0 "q" "(1,)" "[]" (some 7)).state
        50 "q" "(1,)" "[]" (some 7)).insights.cache_hit = true ∧
    (cache_llm_response 3600 ⟨false, false⟩
        (cache_llm_response 3600 ⟨false, false⟩ ([] : CacheState Nat) 0 "c"
          (PromptArg.pstr "p") "[]" (some 7)).state
        50 "c" (PromptArg.pstr "p") "[]" (some 7)).insights.cache_hit = true := by
  have hdb := C4_cache_idempotence.1 Nat ⟨false, false⟩ [] 100 0 50 "q" "(1,)" "[]" 7
    rfl rfl (by decide) (by decide)
  have hllm := C4_cache_idempotence.2 Nat ⟨false, false⟩ [] 3600 0 50 "c"
    (PromptArg.pstr "p") "[]" 7 rfl rfl (by decide) (by decide)
  exact ⟨hdb.1, hdb.2.2.1, hdb.2.2.2.2, hllm.2.2.2.2⟩

/-! ## C5 — graceful degradation on backend failure -/

/-- C5 (confirmed): for both wrappers, if the cache backend raises on
lookup, the wrapper still executes the wrapped function, returns exactly
its computed result with the backend state untouched, and marks the
insight `cache_error=true`.  The embedding is a total function — the
`except` branch swallows the cache exception, so it never reaches the
caller. -/
theorem C5_cache_degradation :
    (∀ (α : Type) (backend : CacheBackend) (st : CacheState α)
        (timeout now : Nat) (fname args kwargs : String) (fnResult : Option α),
      backend.get_raises = true →
      (cache_db_query timeout backend st now fname args kwargs fnResult).value = fnResult ∧
      (cache_db_query timeout backend st now fname args kwargs fnResult).insights.cache_error = true ∧
      (cache_db_query timeout backend st now fname args kwargs fnResult).fn_calls = 1 ∧
      (cache_db_query timeout backend st now fname args kwargs fnResult).state = st) ∧
    (∀ (α : Type) (backend : CacheBackend) (st : CacheState α)
        (timeout now : Nat) (fname : String) (arg0 : PromptArg)
        (kwargs : String) (fnResult : Option α),
      backend.get_raises = true →
      (cache_llm_response timeout backend st now fname arg0 kwargs fnResult).value = fnResult ∧
      (cache_llm_response timeout backend st now fname arg0 kwargs fnResult).insights.cache_error = true ∧
      (cache_llm_response timeout backend st now fname arg0 kwargs fnResult).fn_calls = 1 ∧
      (cache_llm_response timeout backend st now fname arg0 kwargs fnResult).state = st) := by
  constructor
  · intro α backend st timeout now fname args kwargs fnResult hg
    refine ⟨?_, ?_, ?_, ?_⟩ <;> simp [cache_db_query, hg, CacheInsights.cache_error]
  · intro α backend st timeout now fname arg0 kwargs fnResult hg
    refine ⟨?_, ?_, ?_, ?_⟩ <;> simp [cache_llm_response, hg, CacheInsights.cache_error]

/-- C5 witness: degradation at concrete inputs for both wrappers,
including a wrapped function that itself computed `None`. -/
theorem C5_witness :
    (cache_db_query 1800 ⟨true, false⟩ ([] : CacheState Nat) 0 "q" "(1,)" "[]" (some 9)).value = some 9 ∧
    (cache_db_query 1800 ⟨true, false⟩ ([] : CacheState Nat) 0 "q" "(1,)" "[]" (some 9)).insights.cache_error = true ∧
    (cache_llm_response 3600 ⟨true, false⟩ ([] : CacheState Nat) 0 "c"
        (PromptArg.pstr "p") "[]" (none : Option Nat)).value = none ∧
    (cache_llm_response 3600 ⟨true, false⟩ ([] : CacheState Nat) 0 "c"
        (PromptArg.pstr "p") "[]" (none : Option Nat)).insights.cache_error = true := by
  have hdb := C5_cache_degradation.1 Nat ⟨true, false⟩ [] 1800 0 "q" "(1,)" "[]" (some 9) rfl
  have hllm := C5_cache_degradation.2 Nat ⟨true, false⟩ [] 3600 0 "c"
    (PromptArg.pstr "p") "[]" none rfl
  exact ⟨hdb.1, hdb.2.1, hllm.1, hllm.2.1⟩

end CodeEval
